import Mathlib

/-!
Shallow embedding of the CyberSecurity threat-monitor dashboard
(`frontend/src/App.js`): the fetch/reconcile polling loop, the UI state it
maintains, and the pure parts of the renderer.  JavaScript objects with
optional fields become structures with `Option` fields, JS `null`/`undefined`
falsiness becomes explicit `Option`/emptiness tests, `Promise.all` becomes an
explicit join of two `Except` outcomes, and React's `useState`/unmount
semantics become an explicit component state machine.
-/

namespace ThreatMonitor

/-- JSON values, as they may appear in a threat's `details` mapping.  Object
fields are kept in insertion order, matching `Object.entries`.  Numbers are
modelled as integers (no claim involves non-integral numeric payloads). -/
inductive Json where
  | null : Json
  | bool : Bool → Json
  | num : Int → Json
  | str : String → Json
  | arr : List Json → Json
  | obj : List (String × Json) → Json

mutual

/-- Serialisation of a detail value, modelling `JSON.stringify` (string
escaping elided; no claim depends on it). -/
def stringify : Json → String
  | .null => "null"
  | .bool b => cond b "true" "false"
  | .num n => toString n
  | .str s => "\"" ++ s ++ "\""
  | .arr l => "[" ++ stringifyArr l ++ "]"
  | .obj l => "\x7b" ++ stringifyObj l ++ "\x7d"

/-- Comma-separated serialisation of a JSON array's elements. -/
def stringifyArr : List Json → String
  | [] => ""
  | [x] => stringify x
  | x :: y :: xs => stringify x ++ "," ++ stringifyArr (y :: xs)

/-- Comma-separated serialisation of a JSON object's fields. -/
def stringifyObj : List (String × Json) → String
  | [] => ""
  | [(k, v)] => "\"" ++ k ++ "\":" ++ stringify v
  | (k, v) :: y :: xs => "\"" ++ k ++ "\":" ++ stringify v ++ "," ++ stringifyObj (y :: xs)

end

/-- One element of the threat list (App.js renders `threat.severity`,
`threat.timestamp`, `threat.type`, `threat.description`, `threat.details`).
Optional JS fields are `Option`s. -/
structure Threat where
  severity : Option String
  type : String
  description : String
  timestamp : String
  details : Option (List (String × Json))

/-- Payload of `GET /api/threats`: an object whose `threats` field may be
missing (App.js line 23 writes `threatsRes.data.threats || []`). -/
structure ThreatsPayload where
  threats : Option (List Threat)

/-- Payload of `GET /api/dashboard/summary`: four optional counters
(App.js reads `summary.total_threats || 0` and so on). -/
structure Summary where
  total_threats : Option Nat
  critical_threats : Option Nat
  blocked_connections : Option Nat
  monitored_processes : Option Nat

/-- The record `{}` that App.js line 24 substitutes for a falsy summary
payload: every counter field is absent. -/
def emptySummary : Summary :=
  { total_threats := none, critical_threats := none
    blocked_connections := none, monitored_processes := none }

/-- The four `useState` slots of the component (App.js lines 7-10). -/
structure UIState where
  threats : List Threat
  summary : Option Summary
  loading : Bool
  error : Option String

/-- Initial state at mount: `useState([])`, `useState(null)`,
`useState(true)`, `useState(null)` (App.js lines 7-10). -/
def initialState : UIState :=
  { threats := [], summary := none, loading := true, error := none }

/-- The fixed base endpoint address (App.js line 4). -/
def API_BASE : String := "http://localhost:8001"

/-- The failure message derived in the catch block (App.js line 26):
`Failed to fetch data: ${err.message}`. -/
def failureMessage (msg : String) : String :=
  "Failed to fetch data: " ++ msg

/-- Join of the two request outcomes, modelling
`Promise.all([axios.get(threats), axios.get(summary)])` (App.js lines 18-21):
the combined outcome is a success exactly when both requests succeed, and a
failure carrying one failed request's message otherwise.  (`Promise.all`
rejects with whichever request fails first in time; the model picks the
threats request's error when both fail, which no claim distinguishes.) -/
def promiseAll2 {α β : Type} :
    Except String α → Except String β → Except String (α × β)
  | .error e, _ => .error e
  | .ok _, .error e => .error e
  | .ok a, .ok b => .ok (a, b)

/-- State change at the start of a fetch cycle (App.js lines 15-16):
`setLoading(true); setError(null)`. -/
def beginCycle (s : UIState) : UIState :=
  { s with loading := true, error := none }

/-- State change when the joined outcome settles (App.js lines 23-30): on
success, `setThreats(threatsRes.data.threats || [])` and
`setSummary(summaryRes.data || {})`; on failure, `setError` with the derived
message; in both cases the finally block runs `setLoading(false)`. -/
def applyOutcome (s : UIState)
    (outcome : Except String (ThreatsPayload × Option Summary)) : UIState :=
  match outcome with
  | .ok (tp, sp) =>
      { s with threats := tp.threats.getD []
               summary := some (sp.getD emptySummary)
               loading := false }
  | .error msg =>
      { s with error := some (failureMessage msg), loading := false }

/-- One complete, non-overlapped fetch cycle (the whole `fetchData` body,
App.js lines 13-31), given the settled outcome of each of the two requests. -/
def fetchCycle (s : UIState) (treq : Except String ThreatsPayload)
    (sreq : Except String (Option Summary)) : UIState :=
  applyOutcome (beginCycle s) (promiseAll2 treq sreq)

/-! ### Severity formatting -/

/-- ASCII lower-casing of one character, modelling
`String.prototype.toLowerCase` on the ASCII severity labels the dashboard
uses (this is also exactly core `Char.toLower`, restated over `Char.toNat`
so that its arithmetic is directly accessible to proofs). -/
def charToLower (c : Char) : Char :=
  if 65 ≤ c.toNat ∧ c.toNat ≤ 90 then Char.ofNat (c.toNat + 32) else c

/-- ASCII upper-casing of one character, modelling
`String.prototype.toUpperCase` on ASCII input. -/
def charToUpper (c : Char) : Char :=
  if 97 ≤ c.toNat ∧ c.toNat ≤ 122 then Char.ofNat (c.toNat - 32) else c

/-- ASCII lower-casing of a string (JS `toLowerCase`), defined by mapping
over the character list so that list lemmas apply. -/
def strToLower (s : String) : String := ⟨s.data.map charToLower⟩

/-- ASCII upper-casing of a string (JS `toUpperCase`). -/
def strToUpper (s : String) : String := ⟨s.data.map charToUpper⟩

/-- The severity-to-colour mapping `getSeverityColor` (App.js lines 42-50):
`switch (severity?.toLowerCase())` with cases critical/high/medium/low and a
default.  `none` models an absent `severity` (the optional chain yields
`undefined`, which matches no case). -/
def getSeverityColor (severity : Option String) : String :=
  match severity with
  | none => "#888888"
  | some s =>
    match strToLower s with
    | "critical" => "#ff4444"
    | "high" => "#ff8800"
    | "medium" => "#ffaa00"
    | "low" => "#88aa00"
    | _ => "#888888"

/-- The severity badge text `threat.severity?.toUpperCase() || 'UNKNOWN'`
(App.js line 124): an absent severity — or one whose upper-casing is the
empty (falsy) string — renders as `UNKNOWN`. -/
def severityBadge (severity : Option String) : String :=
  match severity with
  | none => "UNKNOWN"
  | some s => if strToUpper s = "" then "UNKNOWN" else strToUpper s

/-! ### Rendering -/

/-- Locale timestamp formatting `new Date(timestamp).toLocaleString()`
(App.js lines 38-40).  The locale and timezone are fixed for a session, so
the formatter is modelled as a deterministic function of the serialised
timestamp; no claim depends on the concrete text. -/
def formatTimestamp (timestamp : String) : String :=
  "date:" ++ timestamp

/-- The `Last updated` clock text `new Date().toLocaleTimeString()`
(App.js line 78), as a function of the wall-clock instant (in seconds) at
which the render happens.  Distinct instants yield distinct text, as
`toLocaleTimeString` distinguishes instants a second apart. -/
def formatClock (now : Nat) : String :=
  "clock:" ++ toString now

/-- The rendered summary-counter grid (App.js lines 83-100), with each
absent counter displayed as zero (`summary.total_threats || 0`...). -/
structure SummaryGrid where
  totalThreats : Nat
  criticalThreats : Nat
  blockedConnections : Nat
  monitoredProcesses : Nat
deriving DecidableEq

/-- Grid shown for a non-null summary record. -/
def summaryGrid (sm : Summary) : SummaryGrid :=
  { totalThreats := sm.total_threats.getD 0
    criticalThreats := sm.critical_threats.getD 0
    blockedConnections := sm.blocked_connections.getD 0
    monitoredProcesses := sm.monitored_processes.getD 0 }

/-- One rendered threat card (App.js lines 114-145): severity badge and its
colour, formatted timestamp, type, description, and the optional details
block — `none` when the threat has no `details` field, `some` of the
rendered `key: JSON.stringify(value)` entries when it has one. -/
structure ThreatCard where
  badge : String
  badgeColor : String
  time : String
  type : String
  description : String
  details : Option (List (String × String))
deriving DecidableEq

/-- Card rendered for one threat. -/
def renderCard (t : Threat) : ThreatCard :=
  { badge := severityBadge t.severity
    badgeColor := getSeverityColor t.severity
    time := formatTimestamp t.timestamp
    type := t.type
    description := t.description
    details := t.details.map (fun d => d.map (fun kv => (kv.1, stringify kv.2))) }

/-- The visual output of one render pass: exactly one of the three views of
App.js — the error view (lines 52-62), the first-load placeholder (lines
64-72), or the full dashboard (lines 74-150) with its last-updated clock
line, refreshing indicator, optional summary grid, threat count header,
empty-state banner and threat cards. -/
inductive Rendered where
  | errorView (message : String) (hint : String)
  | loadingView
  | dashboard (lastUpdated : String) (refreshing : Bool)
      (grid : Option SummaryGrid) (threatCount : Nat)
      (emptyBanner : Bool) (cards : List ThreatCard)
deriving DecidableEq

/-- JS truthiness of the nullable `error` string slot: `null` and `""` are
falsy, every other string is truthy. -/
def truthyStr : Option String → Bool
  | none => false
  | some s => s != ""

/-- The component's render function (App.js lines 52-150) as a function of
the UI state and of the wall-clock instant `now` read by `new Date()` on
line 78.  Precedence follows the early returns: error view first, then the
loading placeholder when `loading && threats.length === 0`, else the
dashboard. -/
def render (s : UIState) (now : Nat) : Rendered :=
  if truthyStr s.error then
    .errorView (s.error.getD "") ("Make sure the backend is running at " ++ API_BASE)
  else if s.loading && s.threats.length == 0 then
    .loadingView
  else
    .dashboard (formatClock now) s.loading (s.summary.map summaryGrid)
      s.threats.length (s.threats.length == 0) (s.threats.map renderCard)

/-- The three render modes. -/
inductive RenderMode where
  | errorView
  | loadingView
  | dashboard
deriving DecidableEq

/-- Which of the three views a rendered output is. -/
def modeOf : Rendered → RenderMode
  | .errorView _ _ => .errorView
  | .loadingView => .loadingView
  | .dashboard _ _ _ _ _ _ => .dashboard

/-- Rendered output with the last-updated clock text blanked, used to state
what part of the output is independent of the wall clock. -/
def stripClock : Rendered → Rendered
  | .dashboard _ r g c e cards => .dashboard "" r g c e cards
  | r => r

/-- The summary grid shown by a rendered output (`none` for the error and
loading views, which have no grid). -/
def renderedGrid : Rendered → Option SummaryGrid
  | .dashboard _ _ g _ _ _ => g
  | _ => none

/-! ### Component lifecycle -/

/-- The mounted component: its UI state, whether it is still mounted, and
whether the `setInterval` timer is still armed. -/
structure Component where
  state : UIState
  mounted : Bool
  timerActive : Bool

/-- The component right after mount (App.js lines 12, 33-34): initial state,
mounted, interval timer armed. -/
def mountComponent : Component :=
  { state := initialState, mounted := true, timerActive := true }

/-- React `useState` setter semantics: a state update delivered to an
unmounted component is discarded — React applies no state change and
schedules no re-render after unmount.  This is the React runtime behaviour
the component relies on; App.js itself adds no guard. -/
def setState (c : Component) (f : UIState → UIState) : Component :=
  if c.mounted then { c with state := f c.state } else c

/-- The effect cleanup at teardown (App.js line 35): `clearInterval` disarms
the timer, and the component unmounts. -/
def teardown (c : Component) : Component :=
  { c with mounted := false, timerActive := false }

/-- Observable events driving the component: a timer tick starting a fetch
cycle, the settling of an in-flight cycle's joined outcome, and unmount. -/
inductive Event where
  | tick : Event
  | settle : Except String (ThreatsPayload × Option Summary) → Event
  | unmount : Event

/-- One lifecycle step.  A tick only starts a cycle while the interval timer
is armed; a settling fetch applies its outcome through the `useState`
setters (hence is discarded after unmount); unmount runs the cleanup. -/
def step (c : Component) : Event → Component
  | .tick => if c.timerActive then setState c beginCycle else c
  | .settle o => setState c (fun s => applyOutcome s o)
  | .unmount => teardown c

/-- Components reachable from the freshly mounted component by lifecycle
steps: exactly the states the running program can be in. -/
inductive Reachable : Component → Prop where
  | base : Reachable mountComponent
  | next {c : Component} (e : Event) : Reachable c → Reachable (step c e)

/-- The `error` slot is either unset or holds a non-empty message (the only
writes are `setError(null)` and `setError` of a derived failure message). -/
def goodError (s : UIState) : Prop :=
  s.error = none ∨ ∃ m, s.error = some m ∧ m ≠ ""

/-! ### Helper lemmas -/

theorem toNat_ofNat_valid {n : Nat} (h : n.isValidChar) :
    (Char.ofNat n).toNat = n := by
  rw [Char.ofNat, dif_pos h]
  rfl

theorem charToUpper_charToLower (c : Char) :
    charToUpper (charToLower c) = charToUpper c := by
  unfold charToLower charToUpper
  by_cases h : 65 ≤ c.toNat ∧ c.toNat ≤ 90
  · rw [if_pos h]
    have hv : (Char.ofNat (c.toNat + 32)).toNat = c.toNat + 32 :=
      toNat_ofNat_valid (Or.inl (by omega))
    rw [hv, if_pos (by omega), if_neg (by omega)]
    have hsub : c.toNat + 32 - 32 = c.toNat := by omega
    rw [hsub, Char.ofNat_toNat]
  · rw [if_neg h]

theorem strToLower_inj_data {s t : String}
    (h : strToLower s = strToLower t) :
    s.data.map charToLower = t.data.map charToLower := by
  simpa [strToLower, String.ext_iff] using h

theorem map_charToUpper_charToLower (l : List Char) :
    (l.map charToLower).map charToUpper = l.map charToUpper := by
  induction l with
  | nil => rfl
  | cons c cs ih => simp [ih, charToUpper_charToLower]

theorem strToUpper_congr {s t : String}
    (h : strToLower s = strToLower t) : strToUpper s = strToUpper t := by
  have hd := strToLower_inj_data h
  show (⟨s.data.map charToUpper⟩ : String) = ⟨t.data.map charToUpper⟩
  rw [← map_charToUpper_charToLower s.data, ← map_charToUpper_charToLower t.data, hd]

theorem getSeverityColor_some (u : String) :
    getSeverityColor (some u) =
      match strToLower u with
      | "critical" => "#ff4444"
      | "high" => "#ff8800"
      | "medium" => "#ffaa00"
      | "low" => "#88aa00"
      | _ => "#888888" := rfl

theorem getSeverityColor_congr {s t : String}
    (h : strToLower s = strToLower t) :
    getSeverityColor (some s) = getSeverityColor (some t) := by
  rw [getSeverityColor_some, getSeverityColor_some, h]

theorem severityBadge_some (u : String) :
    severityBadge (some u) =
      if strToUpper u = "" then "UNKNOWN" else strToUpper u := rfl

theorem severityBadge_congr {s t : String}
    (h : strToLower s = strToLower t) :
    severityBadge (some s) = severityBadge (some t) := by
  rw [severityBadge_some, severityBadge_some, strToUpper_congr h]

theorem failureMessage_ne_empty (m : String) : failureMessage m ≠ "" := by
  intro h
  have hl := congrArg String.length h
  rw [failureMessage, String.length_append] at hl
  have h22 : ("Failed to fetch data: " : String).length = 22 := rfl
  have h0 : ("" : String).length = 0 := rfl
  rw [h22, h0] at hl
  omega

theorem goodError_applyOutcome (s : UIState)
    (o : Except String (ThreatsPayload × Option Summary))
    (h : goodError s) : goodError (applyOutcome s o) := by
  cases o with
  | ok p => exact h
  | error m =>
    right
    exact ⟨failureMessage m, rfl, failureMessage_ne_empty m⟩

theorem goodError_reachable {c : Component} (h : Reachable c) :
    goodError c.state := by
  induction h with
  | base => left; rfl
  | next e _ ih =>
    cases e with
    | tick =>
      simp only [step, setState]
      split
      · split
        · left; rfl
        · exact ih
      · exact ih
    | settle o =>
      simp only [step, setState]
      split
      · exact goodError_applyOutcome _ o ih
      · exact ih
    | unmount =>
      simp only [step, teardown]
      exact ih

/-! ### Claim theorems -/

/-- C1: a failed fetch cycle sets `error` to a non-empty message, sets
`loading` to false, and leaves `threats` and `summary` exactly as they were
(stale data from the last successful cycle stays in state). -/
theorem failure_keeps_stale_data (s : UIState)
    (treq : Except String ThreatsPayload)
    (sreq : Except String (Option Summary)) (m : String)
    (h : promiseAll2 treq sreq = .error m) :
    fetchCycle s treq sreq =
      { threats := s.threats, summary := s.summary,
        loading := false, error := some (failureMessage m) } ∧
    failureMessage m ≠ "" := by
  constructor
  · unfold fetchCycle
    rw [h]
    rfl
  · exact failureMessage_ne_empty m

theorem failure_keeps_stale_data_witness :
    fetchCycle
        { threats := [], summary := some emptySummary,
          loading := false, error := none }
        (.error "Network Error") (.ok none) =
      { threats := [], summary := some emptySummary,
        loading := false, error := some (failureMessage "Network Error") } :=
  (failure_keeps_stale_data
    { threats := [], summary := some emptySummary,
      loading := false, error := none }
    (.error "Network Error") (.ok none) "Network Error" rfl).1

/-- C3: a successful fetch cycle replaces `threats` with the payload's
threats array (empty when the field is missing) and `summary` with the
summary payload (empty record when missing), sets `loading` to false, and
leaves `error` unset. -/
theorem success_reconciliation (s : UIState) (tp : ThreatsPayload)
    (sp : Option Summary) :
    fetchCycle s (.ok tp) (.ok sp) =
      { threats := tp.threats.getD [], summary := some (sp.getD emptySummary),
        loading := false, error := none } := rfl

/-- C4: one fetch cycle joins its two requests into a single outcome —
success exactly when both requests succeed, failure when either fails — and
in particular a cycle whose summary request fails while the threats request
succeeds ends in the error view. -/
theorem fetch_join_semantics (treq : Except String ThreatsPayload)
    (sreq : Except String (Option Summary)) :
    ((∃ tp sp, promiseAll2 treq sreq = .ok (tp, sp)) ↔
      (∃ tp, treq = .ok tp) ∧ (∃ sp, sreq = .ok sp)) ∧
    ((∃ m, promiseAll2 treq sreq = .error m) ↔
      (∃ m, treq = .error m) ∨ (∃ m, sreq = .error m)) ∧
    (∀ (s : UIState) (tp : ThreatsPayload) (m : String) (now : Nat),
      modeOf (render (fetchCycle s (.ok tp) (.error m)) now) = .errorView) := by
  refine ⟨?_, ?_, ?_⟩
  · cases treq <;> cases sreq <;> simp [promiseAll2]
  · cases treq <;> cases sreq <;> simp [promiseAll2]
  · intro s tp m now
    simp [fetchCycle, promiseAll2, applyOutcome, beginCycle, render,
      truthyStr, bne_iff_ne, failureMessage_ne_empty m, modeOf]

/-- C2: in every reachable UI state the three render modes are settled with
strict precedence — a set `error` forces the error view regardless of
`loading` or data, otherwise `loading` with an empty threat list gives the
loading placeholder, otherwise the full dashboard is rendered. -/
theorem render_precedence {c : Component} (h : Reachable c) (now : Nat) :
    (c.state.error ≠ none → modeOf (render c.state now) = .errorView) ∧
    (c.state.error = none → c.state.loading = true → c.state.threats = [] →
      modeOf (render c.state now) = .loadingView) ∧
    (c.state.error = none →
      ¬(c.state.loading = true ∧ c.state.threats = []) →
      modeOf (render c.state now) = .dashboard) := by
  obtain hge := goodError_reachable h
  refine ⟨?_, ?_, ?_⟩
  · intro hne
    rcases hge with h0 | ⟨m, hm, hme⟩
    · exact absurd h0 hne
    · simp [render, hm, truthyStr, bne_iff_ne, hme, modeOf]
  · intro h0 hl ht
    simp [render, h0, truthyStr, hl, ht, modeOf]
  · intro h0 hnl
    have hc : (c.state.loading && c.state.threats.length == 0) = false := by
      by_cases hl : c.state.loading = true
      · have hth : c.state.threats ≠ [] := fun he => hnl ⟨hl, he⟩
        have hlen : c.state.threats.length ≠ 0 := by
          simpa [List.length_eq_zero] using hth
        rw [hl, Bool.true_and]
        exact beq_eq_false_iff_ne.2 hlen
      · rw [Bool.not_eq_true] at hl
        rw [hl, Bool.false_and]
    simp [render, h0, truthyStr, hc, modeOf]

theorem render_precedence_witness :
    modeOf (render mountComponent.state 0) = .loadingView :=
  (render_precedence Reachable.base 0).2.1 rfl rfl rfl

/-- C5 counterexample: rendering is not a pure function of the UI state
alone — at a concrete dashboard-mode state, two renders at wall-clock
instants one second apart produce different output (the `Last updated`
clock line differs). -/
theorem render_depends_on_clock :
    render { threats := [], summary := some emptySummary,
             loading := false, error := none } 0 ≠
    render { threats := [], summary := some emptySummary,
             loading := false, error := none } 1 := by
  decide

/-- C5 (amended): rendering is deterministic in the UI state and the
wall-clock instant read at render time, and apart from the `Last updated`
clock text the rendered output is a pure function of the UI state: renders
of the same state at any two instants agree once the clock text is
blanked. -/
theorem render_pure_up_to_clock (s : UIState) (n₁ n₂ : Nat) :
    stripClock (render s n₁) = stripClock (render s n₂) := by
  unfold render
  split
  · rfl
  · split
    · rfl
    · rfl

/-- C6: the severity-to-colour mapping is exactly critical→`#ff4444` (red),
high→`#ff8800` (orange), medium→`#ffaa00` (amber), low→`#88aa00` (olive),
and — universally — any severity whose lower-casing is none of those four
names, as well as an absent severity, gets the default `#888888` (gray);
matching is case-insensitive: strings with the same lower-casing get the
same colour. -/
theorem severity_color_mapping :
    (∀ s t : String, strToLower s = strToLower t →
      getSeverityColor (some s) = getSeverityColor (some t)) ∧
    (∀ s : String, strToLower s ≠ "critical" → strToLower s ≠ "high" →
      strToLower s ≠ "medium" → strToLower s ≠ "low" →
      getSeverityColor (some s) = "#888888") ∧
    getSeverityColor (some "critical") = "#ff4444" ∧
    getSeverityColor (some "CRITICAL") = "#ff4444" ∧
    getSeverityColor (some "high") = "#ff8800" ∧
    getSeverityColor (some "medium") = "#ffaa00" ∧
    getSeverityColor (some "low") = "#88aa00" ∧
    getSeverityColor none = "#888888" ∧
    getSeverityColor (some "bogus") = "#888888" := by
  refine ⟨fun s t h => getSeverityColor_congr h, ?_, ?_, ?_, ?_, ?_, ?_, rfl, ?_⟩
  · intro s h1 h2 h3 h4
    rw [getSeverityColor_some]
    split <;> simp_all
  all_goals decide

theorem severity_color_mapping_witness :
    getSeverityColor (some "CrItIcAl") = getSeverityColor (some "critical") ∧
    getSeverityColor (some "purple") = "#888888" :=
  ⟨severity_color_mapping.1 "CrItIcAl" "critical" (by decide),
    severity_color_mapping.2.1 "purple"
      (by decide) (by decide) (by decide) (by decide)⟩

/-- C7: a threat without a `details` field renders a card with no details
block, a threat with an empty `details` mapping renders a details block
with no entries, and the two rendered cards are distinguishable. -/
theorem details_block_distinction (t : Threat) :
    ((renderCard t).details = none ↔ t.details = none) ∧
    (t.details = some [] → (renderCard t).details = some []) ∧
    renderCard { t with details := none } ≠
      renderCard { t with details := some [] } := by
  refine ⟨?_, ?_, ?_⟩
  · simp [renderCard]
  · intro h
    simp [renderCard, h]
  · intro h
    have hd := congrArg ThreatCard.details h
    simp [renderCard] at hd

theorem details_block_distinction_witness :
    (renderCard { severity := some "high", type := "PortScan",
                  description := "scan", timestamp := "2025-01-01T00:00:00Z",
                  details := some [] }).details = some [] :=
  (details_block_distinction _).2.1 rfl

/-- C8: after teardown the interval timer is cancelled, and no event — a
timer tick, the settling of a fetch that was still in flight, or a repeated
unmount — changes the component or its UI state, so no state slot is
mutated and the rendered output cannot change (no render is triggered). -/
theorem teardown_no_effects (c : Component) (e : Event) :
    (teardown c).timerActive = false ∧
    step (teardown c) e = teardown c ∧
    (∀ now, render (step (teardown c) e).state now =
      render (teardown c).state now) := by
  have hstep : step (teardown c) e = teardown c := by
    cases e with
    | tick => simp [step, teardown]
    | settle o => simp [step, setState, teardown]
    | unmount => rfl
  exact ⟨rfl, hstep, fun now => by rw [hstep]⟩

/-- C9: a threat with no `severity` field gets the badge `UNKNOWN`, and
severity handling (both the badge text and the colour) is case-insensitive:
strings with the same lower-casing render identically. -/
theorem severity_badge_unknown_case_insensitive :
    severityBadge none = "UNKNOWN" ∧
    (∀ s t : String, strToLower s = strToLower t →
      severityBadge (some s) = severityBadge (some t) ∧
      getSeverityColor (some s) = getSeverityColor (some t)) :=
  ⟨rfl, fun _ _ h => ⟨severityBadge_congr h, getSeverityColor_congr h⟩⟩

theorem severity_badge_unknown_case_insensitive_witness :
    severityBadge none = "UNKNOWN" ∧
    (severityBadge (some "HiGh") = severityBadge (some "high") ∧
      getSeverityColor (some "HiGh") = getSeverityColor (some "high")) :=
  ⟨severity_badge_unknown_case_insensitive.1,
    severity_badge_unknown_case_insensitive.2 "HiGh" "high" (by decide)⟩

/-- C10: `summary` is null in the initial state; whenever the dashboard is
rendered, the summary grid is shown exactly when `summary` is non-null
(absent counters displayed as zero, so the empty record shows four zeroed
counters); every successful cycle makes `summary` non-null and every later
cycle, successful or failed, keeps it non-null. -/
theorem summary_grid_invariant :
    initialState.summary = none ∧
    (∀ (s : UIState) (now : Nat), modeOf (render s now) = .dashboard →
      renderedGrid (render s now) = s.summary.map summaryGrid) ∧
    summaryGrid emptySummary =
      { totalThreats := 0, criticalThreats := 0,
        blockedConnections := 0, monitoredProcesses := 0 } ∧
    (∀ (s : UIState) (tp : ThreatsPayload) (sp : Option Summary),
      (fetchCycle s (.ok tp) (.ok sp)).summary.isSome = true) ∧
    (∀ (s : UIState) (treq : Except String ThreatsPayload)
        (sreq : Except String (Option Summary)),
      s.summary.isSome = true →
      (fetchCycle s treq sreq).summary.isSome = true) := by
  refine ⟨rfl, ?_, rfl, ?_, ?_⟩
  · intro s now
    unfold render
    split
    · intro h
      simp [modeOf] at h
    · split
      · intro h
        simp [modeOf] at h
      · intro _
        rfl
  · intro s tp sp
    rfl
  · intro s treq sreq h
    cases treq with
    | error m => exact h
    | ok tp =>
      cases sreq with
      | error m => exact h
      | ok sp => rfl

theorem summary_grid_invariant_witness :
    renderedGrid (render { threats := [], summary := some emptySummary,
                           loading := false, error := none } 0) =
      ({ threats := [], summary := some emptySummary,
         loading := false, error := none } : UIState).summary.map summaryGrid ∧
    (fetchCycle { threats := [], summary := some emptySummary,
                  loading := false, error := none }
      (.error "boom") (.ok none)).summary.isSome = true :=
  ⟨summary_grid_invariant.2.1 _ 0 rfl,
    summary_grid_invariant.2.2.2.2 _ (.error "boom") (.ok none) rfl⟩

end ThreatMonitor
